import Mathlib

/-!
Shallow embedding of the Mira agent trading engine (candidate filtering,
trade generation, caching, position lifecycle, P&L accounting and summary
statistics), translated from the JavaScript/TypeScript sources of the repository:
`dist-server/lib/agents/domain.js`, `dist-server/lib/agents/summary.js`,
`dist-server/lib/agents/ai-cache.js`, the trade cache and trade lifecycle
modules, and `src/lib/agents/config.ts`.

JavaScript numbers are modelled as rationals (`ℚ`); timestamps in
milliseconds as integers (`ℤ`); JS `Map`s and plain objects as association
lists preserving insertion order; thrown errors as `Except String`;
`Date.now()` reads as an explicit `now` parameter.
-/

namespace Mira

/-- Trade / position side, the string union of YES and NO in the source. -/
inductive Side where
  | YES
  | NO
  deriving DecidableEq, Repr

/-- Trade status, the string union of OPEN and CLOSED in the source. -/
inductive TradeStatus where
  | OPEN
  | CLOSED
  deriving DecidableEq, Repr

/-- Risk tier of an agent profile. -/
inductive Risk where
  | LOW
  | MEDIUM
  | HIGH
  deriving DecidableEq, Repr

/-- Scoring weights of an agent profile (`domain.js`). -/
structure Weights where
  volumeWeight : ℚ
  liquidityWeight : ℚ
  priceMovementWeight : ℚ
  newsWeight : ℚ
  probWeight : ℚ
  deriving DecidableEq, Repr

/-- Agent profile (`AGENT_PROFILES` entries in `domain.js`). -/
structure AgentProfile where
  id : String
  displayName : String
  avatar : String
  minVolume : ℚ
  minLiquidity : ℚ
  maxTrades : ℕ
  risk : Risk
  focusCategories : List String
  weights : Weights
  deriving DecidableEq, Repr

/-- A market as used by the lifecycle and generation code: identity plus
the fields the embedded functions read. -/
structure Market where
  id : String
  currentProbability : ℚ
  volume : ℚ
  liquidity : ℚ
  deriving DecidableEq, Repr

/-- A generated agent trade (`AgentTrade` in the source).  `pnl` is
`Option ℚ`, `none` embedding JS `null`. -/
structure AgentTrade where
  id : String
  agentId : String
  marketId : String
  side : Side
  confidence : ℚ
  investmentUsd : ℚ
  entryProbability : ℚ
  status : TradeStatus
  pnl : Option ℚ
  deriving DecidableEq, Repr

/-- An open position held in a portfolio (trade lifecycle module). -/
structure Position where
  marketId : String
  side : Side
  entryProbability : ℚ
  sizeUsd : ℚ
  openedAt : ℤ
  unrealizedPnl : ℚ
  deriving DecidableEq, Repr

/-- A portfolio: open positions keyed by market id (a JS object, embedded
as an association list in insertion order) plus the running totals. -/
structure Portfolio where
  openPositions : List (String × Position)
  realizedPnlUsd : ℚ
  currentCapitalUsd : ℚ
  deriving DecidableEq, Repr

/-! ## Trade lifecycle (`shouldClosePosition`, `calculateRealizedPnl`,
`shouldFlipPosition`, `processPositionLifecycle`) -/

/-- Constant `EXIT_THRESHOLDS.TAKE_PROFIT_YES = 0.8`. -/
def TAKE_PROFIT_YES : ℚ := 8/10

/-- Constant `EXIT_THRESHOLDS.TAKE_PROFIT_NO = 0.2`. -/
def TAKE_PROFIT_NO : ℚ := 2/10

/-- Constant `EXIT_THRESHOLDS.STOP_LOSS_YES = 0.3`. -/
def STOP_LOSS_YES : ℚ := 3/10

/-- Constant `EXIT_THRESHOLDS.STOP_LOSS_NO = 0.7`. -/
def STOP_LOSS_NO : ℚ := 7/10

/-- Constant `EXIT_THRESHOLDS.MAX_HOLDING_DAYS = 30`. -/
def MAX_HOLDING_DAYS : ℚ := 30

/-- Constant `EXIT_THRESHOLDS.MIN_SCORE_THRESHOLD = 20`. -/
def MIN_SCORE_THRESHOLD : ℚ := 20

/-- Embeds `shouldClosePosition(position, market, score)`: the chain of exit
conditions from the trade lifecycle module.  The source reads `Date.now()`;
here the clock is the explicit `now` argument (milliseconds). -/
def shouldClosePosition (position : Position) (market : Market)
    (score : Option ℚ) (now : ℤ) : Bool :=
  let currentProb := market.currentProbability
  let daysOpen : ℚ := ((now - position.openedAt : ℤ) : ℚ) / (1000 * 60 * 60 * 24)
  if position.side = Side.YES ∧ currentProb ≥ TAKE_PROFIT_YES then
    true
  else if position.side = Side.NO ∧ currentProb ≤ TAKE_PROFIT_NO then
    true
  else if position.side = Side.YES ∧ currentProb ≤ STOP_LOSS_YES then
    true
  else if position.side = Side.NO ∧ currentProb ≥ STOP_LOSS_NO then
    true
  else if daysOpen ≥ MAX_HOLDING_DAYS then
    true
  else
    match score with
    | some s => if s < MIN_SCORE_THRESHOLD then true else false
    | none => false

/-- Embeds `calculateRealizedPnl(position, exitProbability)`. -/
def calculateRealizedPnl (position : Position) (exitProbability : ℚ) : ℚ :=
  let entryProb := position.entryProbability
  let sizeUsd := position.sizeUsd
  match position.side with
  | Side.YES => (exitProbability - entryProb) * sizeUsd
  | Side.NO => (entryProb - exitProbability) * sizeUsd

/-- Embeds `shouldFlipPosition(position, market, agent, newConfidence)`.  The
`agent` argument is present in the source signature but unread. -/
def shouldFlipPosition (position : Position) (market : Market)
    (_agent : AgentProfile) (newConfidence : ℚ) : Bool :=
  let currentProb := market.currentProbability
  let entryProb := position.entryProbability
  let isLosing : Bool :=
    match position.side with
    | Side.YES => decide (currentProb < entryProb)
    | Side.NO => decide (currentProb > entryProb)
  if !isLosing then
    false
  else if newConfidence < 7/10 then
    false
  else if |currentProb - entryProb| < 1/10 then
    false
  else
    true

/-- One element of the list returned by `processPositionLifecycle`:
`{ position, realizedPnl }` in the source. -/
abbrev ClosedPosition := Position × ℚ

/-- The body of the loop of `processPositionLifecycle` over
`Object.entries(portfolio.openPositions)`, processed front to back.
Returns the surviving open entries, the closed positions in iteration
order, and the amount added to the portfolio realized-P&L total.
Note that the missing-market branch pushes a closed position but adds
nothing to the total, exactly as the `continue` path in the source does. -/
def processEntries (marketsMap : String → Option Market)
    (scoresMap : String → Option ℚ) (now : ℤ) :
    List (String × Position) →
      List (String × Position) × List ClosedPosition × ℚ
  | [] => ([], [], 0)
  | (marketId, position) :: rest =>
    match marketsMap marketId with
    | none =>
      let r := processEntries marketsMap scoresMap now rest
      (r.1, (position, position.unrealizedPnl) :: r.2.1, r.2.2)
    | some market =>
      if shouldClosePosition position market (scoresMap marketId) now then
        let realizedPnl := calculateRealizedPnl position market.currentProbability
        let r := processEntries marketsMap scoresMap now rest
        (r.1, (position, realizedPnl) :: r.2.1, r.2.2 + realizedPnl)
      else
        let r := processEntries marketsMap scoresMap now rest
        ((marketId, position) :: r.1, r.2.1, r.2.2)

/-- Embeds `processPositionLifecycle(portfolio, marketsMap, scoresMap)`: scans all
open positions, removes the closed ones, and adds the rule-based realized
P&L to `realizedPnlUsd` and `currentCapitalUsd`.  Returns the updated
portfolio together with the closed-position list. -/
def processPositionLifecycle (portfolio : Portfolio)
    (marketsMap : String → Option Market) (scoresMap : String → Option ℚ)
    (now : ℤ) : Portfolio × List ClosedPosition :=
  let r := processEntries marketsMap scoresMap now portfolio.openPositions
  ({ openPositions := r.1,
     realizedPnlUsd := portfolio.realizedPnlUsd + r.2.2,
     currentCapitalUsd := portfolio.currentCapitalUsd + r.2.2 }, r.2.1)

/-- Declarative form: whether an open entry survives the lifecycle scan. -/
def keepEntry (marketsMap : String → Option Market)
    (scoresMap : String → Option ℚ) (now : ℤ) (e : String × Position) : Bool :=
  match marketsMap e.1 with
  | none => false
  | some market => !shouldClosePosition e.2 market (scoresMap e.1) now

/-- Declarative form: the closed-position record an open entry produces, if
any.  A missing market closes at the last known unrealized P&L; a rule
close realizes `calculateRealizedPnl` at the current probability. -/
def closeResult (marketsMap : String → Option Market)
    (scoresMap : String → Option ℚ) (now : ℤ) (e : String × Position) :
    Option ClosedPosition :=
  match marketsMap e.1 with
  | none => some (e.2, e.2.unrealizedPnl)
  | some market =>
    if shouldClosePosition e.2 market (scoresMap e.1) now then
      some (e.2, calculateRealizedPnl e.2 market.currentProbability)
    else
      none

/-- Declarative form: the contribution of an open entry to the portfolio
realized-P&L running total.  Only rule-based closes contribute. -/
def ruleDelta (marketsMap : String → Option Market)
    (scoresMap : String → Option ℚ) (now : ℤ) (e : String × Position) : ℚ :=
  match marketsMap e.1 with
  | none => 0
  | some market =>
    if shouldClosePosition e.2 market (scoresMap e.1) now then
      calculateRealizedPnl e.2 market.currentProbability
    else
      0

/-! ## Agent trade cache (`getCachedAgentTrades`, `setCachedAgentTrades`) -/

/-- A cache entry: `{ trades, generatedAt, marketIds }`. -/
structure CacheEntry where
  trades : List AgentTrade
  generatedAt : ℤ
  marketIds : List String
  deriving DecidableEq, Repr

/-- The JS `Map` `agentCache`, embedded as an association list in
insertion order. -/
abbrev AgentCache := List (String × CacheEntry)

/-- Embeds `Map.prototype.get`. -/
def mapGet : AgentCache → String → Option CacheEntry
  | [], _ => none
  | (k, v) :: rest, key => if k = key then some v else mapGet rest key

/-- Embeds `Map.prototype.delete` (dropping the returned boolean). -/
def mapDelete (m : AgentCache) (key : String) : AgentCache :=
  m.filter (fun e => !(e.1 == key))

/-- Embeds `Map.prototype.set`: update in place if the key exists, else append. -/
def mapSet : AgentCache → String → CacheEntry → AgentCache
  | [], key, v => [(key, v)]
  | (k, v') :: rest, key, v =>
    if k = key then (k, v) :: rest else (k, v') :: mapSet rest key v

/-- Constant `CACHE_TTL_MS = 30 * 1000`. -/
def CACHE_TTL_MS : ℤ := 30 * 1000

/-- Embeds `getCachedAgentTrades(agentId, currentMarketIds)`.  The source reads
`Date.now()` and mutates the shared map; here the clock is `now` and the
updated map is returned alongside the result.  The element-wise loop over
the two sorted id arrays (run only when the lengths agree) is embedded as
list equality. -/
def getCachedAgentTrades (now : ℤ) (cache : AgentCache) (agentId : String)
    (currentMarketIds : List String) :
    Option (List AgentTrade) × AgentCache :=
  match mapGet cache agentId with
  | none => (none, cache)
  | some entry =>
    let age := now - entry.generatedAt
    if age ≥ CACHE_TTL_MS then
      (none, mapDelete cache agentId)
    else if entry.marketIds.length ≠ currentMarketIds.length then
      (none, mapDelete cache agentId)
    else if entry.marketIds ≠ currentMarketIds then
      (none, mapDelete cache agentId)
    else
      (some entry.trades, cache)

/-- Embeds `setCachedAgentTrades(agentId, trades, marketIds)`; the source copies
the `marketIds` array, which is the identity on immutable lists. -/
def setCachedAgentTrades (now : ℤ) (cache : AgentCache) (agentId : String)
    (trades : List AgentTrade) (marketIds : List String) : AgentCache :=
  mapSet cache agentId { trades := trades, generatedAt := now, marketIds := marketIds }

/-- Embeds `getCachedTradesQuick(agentId)`: TTL check only, no market-id
validation. -/
def getCachedTradesQuick (now : ℤ) (cache : AgentCache) (agentId : String) :
    Option (List AgentTrade) × AgentCache :=
  match mapGet cache agentId with
  | none => (none, cache)
  | some entry =>
    let age := now - entry.generatedAt
    if age ≥ CACHE_TTL_MS then
      (none, mapDelete cache agentId)
    else
      (some entry.trades, cache)

/-! ## Summary statistics (`summary.js`) -/

/-- Embeds `(t.pnl || 0)`: JS `null` and `0` both coalesce to `0`. -/
def pnlOrZero (t : AgentTrade) : ℚ := t.pnl.getD 0

/-- Loop state of `computeSummaryStats`: the four accumulators plus
`bestPnl`, where `none` embeds the initial `-Infinity` (every finite
total compares greater than it). -/
structure SummaryAcc where
  totalPnl : ℚ
  openTradesCount : ℕ
  closedTradesCount : ℕ
  bestAgentByPnl : Option String
  bestPnl : Option ℚ
  deriving DecidableEq, Repr

/-- Result record of `computeSummaryStats`. -/
structure SummaryStats where
  totalPnl : ℚ
  openTradesCount : ℕ
  closedTradesCount : ℕ
  bestAgentByPnl : Option String
  deriving DecidableEq, Repr

/-- One iteration of the `for` loop of `computeSummaryStats` over
`Object.entries(tradesByAgent)`. -/
def summaryStep (acc : SummaryAcc) (e : String × List AgentTrade) : SummaryAcc :=
  let closedTrades := e.2.filter (fun t => t.status == TradeStatus.CLOSED)
  let agentPnl := closedTrades.foldl (fun s t => s + pnlOrZero t) 0
  let better : Bool :=
    match acc.bestPnl with
    | none => true
    | some b => decide (agentPnl > b)
  { totalPnl := acc.totalPnl + agentPnl
    openTradesCount :=
      acc.openTradesCount + (e.2.filter (fun t => t.status == TradeStatus.OPEN)).length
    closedTradesCount := acc.closedTradesCount + closedTrades.length
    bestAgentByPnl := if better then some e.1 else acc.bestAgentByPnl
    bestPnl := if better then some agentPnl else acc.bestPnl }

/-- The accumulator state before the loop of `computeSummaryStats`: zeros,
`bestAgentByPnl = null`, `bestPnl = -Infinity`. -/
def summaryInit : SummaryAcc :=
  { totalPnl := 0, openTradesCount := 0, closedTradesCount := 0,
    bestAgentByPnl := none, bestPnl := none }

/-- Embeds `computeSummaryStats(tradesByAgent)`: the final `bestPnl > -Infinity`
guard keeps the recorded agent only when the loop updated `bestPnl` at
least once. -/
def computeSummaryStats (tradesByAgent : List (String × List AgentTrade)) :
    SummaryStats :=
  let r := tradesByAgent.foldl summaryStep summaryInit
  { totalPnl := r.totalPnl
    openTradesCount := r.openTradesCount
    closedTradesCount := r.closedTradesCount
    bestAgentByPnl :=
      match r.bestPnl with
      | none => none
      | some _ => r.bestAgentByPnl }

/-! ## Agent registry (`domain.js`) -/

/-- Profile `AGENT_PROFILES.GROK_4`. -/
def GROK_4 : AgentProfile :=
  { id := "GROK_4", displayName := "GROK 4", avatar := "🔥",
    minVolume := 30000, minLiquidity := 5000, maxTrades := 5,
    risk := Risk.HIGH, focusCategories := ["Crypto", "Tech", "Politics"],
    weights := { volumeWeight := 13/10, liquidityWeight := 1,
                 priceMovementWeight := 14/10, newsWeight := 9/10, probWeight := 1 } }

/-- Profile `AGENT_PROFILES.GPT_5`. -/
def GPT_5 : AgentProfile :=
  { id := "GPT_5", displayName := "GPT-5", avatar := "✨",
    minVolume := 100000, minLiquidity := 20000, maxTrades := 4,
    risk := Risk.MEDIUM, focusCategories := ["Tech", "Finance", "Crypto"],
    weights := { volumeWeight := 11/10, liquidityWeight := 12/10,
                 priceMovementWeight := 1, newsWeight := 11/10, probWeight := 11/10 } }

/-- Profile `AGENT_PROFILES.DEEPSEEK_V3`. -/
def DEEPSEEK_V3 : AgentProfile :=
  { id := "DEEPSEEK_V3", displayName := "DEEPSEEK V3", avatar := "🔮",
    minVolume := 75000, minLiquidity := 15000, maxTrades := 6,
    risk := Risk.MEDIUM, focusCategories := ["Crypto", "Finance", "Elections"],
    weights := { volumeWeight := 1, liquidityWeight := 1,
                 priceMovementWeight := 11/10, newsWeight := 13/10, probWeight := 1 } }

/-- Profile `AGENT_PROFILES.GEMINI_2_5`. -/
def GEMINI_2_5 : AgentProfile :=
  { id := "GEMINI_2_5", displayName := "GEMINI 2.5", avatar := "♊",
    minVolume := 20000, minLiquidity := 3000, maxTrades := 7,
    risk := Risk.HIGH, focusCategories := ["Sports", "Entertainment", "World"],
    weights := { volumeWeight := 9/10, liquidityWeight := 9/10,
                 priceMovementWeight := 13/10, newsWeight := 14/10, probWeight := 1 } }

/-- Profile `AGENT_PROFILES.CLAUDE_4_5`. -/
def CLAUDE_4_5 : AgentProfile :=
  { id := "CLAUDE_4_5", displayName := "CLAUDE 4.5", avatar := "🧠",
    minVolume := 80000, minLiquidity := 18000, maxTrades := 5,
    risk := Risk.LOW, focusCategories := ["Finance", "Politics", "Elections"],
    weights := { volumeWeight := 1, liquidityWeight := 13/10,
                 priceMovementWeight := 9/10, newsWeight := 14/10, probWeight := 12/10 } }

/-- Profile `AGENT_PROFILES.QWEN_2_5`. -/
def QWEN_2_5 : AgentProfile :=
  { id := "QWEN_2_5", displayName := "QWEN 2.5", avatar := "🤖",
    minVolume := 60000, minLiquidity := 12000, maxTrades := 6,
    risk := Risk.MEDIUM, focusCategories := ["Finance", "Geopolitics", "World"],
    weights := { volumeWeight := 11/10, liquidityWeight := 1,
                 priceMovementWeight := 1, newsWeight := 12/10, probWeight := 11/10 } }

/-- The own keys of the `AGENT_PROFILES` object literal: the six agent
profiles declared in `domain.js`. -/
def AGENT_PROFILES_own (agentId : String) : Option AgentProfile :=
  if agentId = "GROK_4" then some GROK_4
  else if agentId = "GPT_5" then some GPT_5
  else if agentId = "DEEPSEEK_V3" then some DEEPSEEK_V3
  else if agentId = "GEMINI_2_5" then some GEMINI_2_5
  else if agentId = "CLAUDE_4_5" then some CLAUDE_4_5
  else if agentId = "QWEN_2_5" then some QWEN_2_5
  else none

/-- A defined (non-`undefined`) value the property read
`AGENT_PROFILES[agentId]` can produce: one of the six profiles (an own
key of the object literal), or a member inherited from
`Object.prototype` — the registry is a plain object literal, so a
bracket read consults the prototype chain after the own keys. -/
inductive JsProfileValue where
  | profile (p : AgentProfile)
  | protoMember (key : String)
  deriving DecidableEq, Repr

/-- The property names of `Object.prototype`.  Every one of them holds a
truthy value: a built-in function, or the prototype object itself for
the `__proto__` accessor. -/
def OBJECT_PROTOTYPE_KEYS : List String :=
  ["constructor", "hasOwnProperty", "isPrototypeOf", "propertyIsEnumerable",
   "toLocaleString", "toString", "valueOf", "__proto__", "__defineGetter__",
   "__defineSetter__", "__lookupGetter__", "__lookupSetter__"]

/-- Embeds the property read `AGENT_PROFILES[agentId]` on the plain
object literal: own keys first, then the `Object.prototype` chain, and
`undefined` (`none`) only for names found in neither. -/
def AGENT_PROFILES (agentId : String) : Option JsProfileValue :=
  match AGENT_PROFILES_own agentId with
  | some p => some (JsProfileValue.profile p)
  | none =>
    if agentId ∈ OBJECT_PROTOTYPE_KEYS then
      some (JsProfileValue.protoMember agentId)
    else
      none

/-- Embeds `ALL_AGENT_IDS = Object.keys(AGENT_PROFILES)` in declaration
order (`Object.keys` lists own enumerable keys only). -/
def ALL_AGENT_IDS : List String :=
  ["GROK_4", "GPT_5", "DEEPSEEK_V3", "GEMINI_2_5", "CLAUDE_4_5", "QWEN_2_5"]

/-- Embeds `getAgentProfile(agentId)`: the `!profile` guard throws
`Unknown agent ID: <id>` (embedded as `Except.error`) only when the
property read yields `undefined`; any truthy value — a profile or an
inherited `Object.prototype` member — is returned as-is. -/
def getAgentProfile (agentId : String) : Except String JsProfileValue :=
  match AGENT_PROFILES agentId with
  | some v => Except.ok v
  | none => Except.error ("Unknown agent ID: " ++ agentId)

/-- Embeds `isValidAgentId(id)`, i.e. `id in AGENT_PROFILES`: the JS
`in` operator also walks the prototype chain. -/
def isValidAgentId (id : String) : Bool :=
  (AGENT_PROFILES id).isSome

/-! ## Agent statistics (`calculateAgentStats` in the stats module):
the wins/losses/win-rate computation, which is all the analysed claims
read.  The remaining output fields (cash, exposure, colors, ...) are
independent of these three. -/

/-- Embeds the filter keeping trades whose status is CLOSED and whose pnl is non-null. -/
def statsClosedTrades (trades : List AgentTrade) : List AgentTrade :=
  trades.filter (fun t => t.status == TradeStatus.CLOSED && t.pnl.isSome)

/-- Embeds `closedTrades.filter(t => (t.pnl || 0) > 0).length`. -/
def statsWins (trades : List AgentTrade) : ℕ :=
  ((statsClosedTrades trades).filter (fun t => decide (pnlOrZero t > 0))).length

/-- Embeds `closedTrades.filter(t => (t.pnl || 0) <= 0).length`. -/
def statsLosses (trades : List AgentTrade) : ℕ :=
  ((statsClosedTrades trades).filter (fun t => decide (pnlOrZero t ≤ 0))).length

/-- Embeds `winRate = wins + losses > 0 ? (wins / (wins + losses)) * 100 : 0`. -/
def statsWinRate (trades : List AgentTrade) : ℚ :=
  let wins := statsWins trades
  let losses := statsLosses trades
  if wins + losses > 0 then ((wins : ℚ) / ((wins : ℚ) + (losses : ℚ))) * 100 else 0

/-! ## Trade generation (`generateAgentTrades` in `config.ts`) -/

/-- A scored market as consumed by the generation loop. -/
structure ScoredMarket where
  id : String
  question : String
  score : ℚ
  currentProbability : ℚ
  deriving DecidableEq, Repr

/-- Stable insertion of one element into a list sorted descending by
score: the element goes after every earlier element scoring at least as
high. -/
def insertScoreDesc (m : ScoredMarket) : List ScoredMarket → List ScoredMarket
  | [] => [m]
  | x :: xs => if x.score ≥ m.score then x :: insertScoreDesc m xs else m :: x :: xs

/-- Embeds `scoredMarkets.sort((a, b) => b.score - a.score)`: a stable descending
sort by score. -/
def sortByScoreDesc (l : List ScoredMarket) : List ScoredMarket :=
  l.foldr insertScoreDesc []

/-- The `for` loop of `generateAgentTrades` over the top markets: the
oracle abstracts `generateTradeForMarket` (its `null` result and a thrown,
caught-and-logged error both yield `none` and are skipped).  After a push
the loop stops as soon as `trades.length >= agent.maxTrades`. -/
def tradeLoop (maxTrades : ℕ) (oracle : ScoredMarket → ℕ → Option AgentTrade) :
    List ScoredMarket → ℕ → List AgentTrade → List AgentTrade
  | [], _, trades => trades
  | scored :: rest, i, trades =>
    let trades2 :=
      match oracle scored i with
      | some trade => trades ++ [trade]
      | none => trades
    if trades2.length ≥ maxTrades then trades2
    else tradeLoop maxTrades oracle rest (i + 1) trades2

/-- The generation core of `generateAgentTrades` after the cache check:
sort scored candidates descending, take the top `2 × maxTrades` as the
safety buffer, and run the acceptance loop from an empty trade list. -/
def generateTradesFromScored (agent : AgentProfile)
    (scoredMarkets : List ScoredMarket)
    (oracle : ScoredMarket → ℕ → Option AgentTrade) : List AgentTrade :=
  let sorted := sortByScoreDesc scoredMarkets
  let topMarkets := sorted.take (agent.maxTrades * 2)
  tradeLoop agent.maxTrades oracle topMarkets 0 []

/-! ## Concrete inputs used by counterexamples and witnesses -/

/-- A YES position on market `m1` with last known unrealized P&L of 5. -/
def c2Pos : Position :=
  { marketId := "m1", side := Side.YES, entryProbability := 1/2,
    sizeUsd := 100, openedAt := 0, unrealizedPnl := 5 }

/-- A portfolio holding only `c2Pos`, with no realized P&L yet. -/
def c2Portfolio : Portfolio :=
  { openPositions := [("m1", c2Pos)], realizedPnlUsd := 0,
    currentCapitalUsd := 1000 }

/-- A sample OPEN trade used by the cache witness and the summary
counterexample. -/
def c3Trade : AgentTrade :=
  { id := "t1", agentId := "GROK_4", marketId := "m1", side := Side.YES,
    confidence := 8/10, investmentUsd := 100, entryProbability := 1/2,
    status := TradeStatus.OPEN, pnl := none }

/-- A position whose market `m1` will be missing from the snapshot. -/
def c6MissPos : Position :=
  { marketId := "m1", side := Side.NO, entryProbability := 6/10,
    sizeUsd := 80, openedAt := 0, unrealizedPnl := 7 }

/-- A position on market `m2` that meets no exit condition at time 0. -/
def c6KeepPos : Position :=
  { marketId := "m2", side := Side.YES, entryProbability := 1/2,
    sizeUsd := 50, openedAt := 0, unrealizedPnl := 0 }

/-- Market `m2` sitting at probability 0.5. -/
def c6Mkt2 : Market :=
  { id := "m2", currentProbability := 1/2, volume := 1000, liquidity := 100 }

/-- A snapshot containing only market `m2`. -/
def c6M : String → Option Market :=
  fun marketId => if marketId = "m2" then some c6Mkt2 else none

/-- A portfolio holding the missing-market position and the healthy one. -/
def c6Portfolio : Portfolio :=
  { openPositions := [("m1", c6MissPos), ("m2", c6KeepPos)],
    realizedPnlUsd := 0, currentCapitalUsd := 1000 }

/-- A closed winning trade (P&L 10) for the win-rate witness. -/
def c10Win : AgentTrade :=
  { id := "t1", agentId := "GROK_4", marketId := "m1", side := Side.YES,
    confidence := 8/10, investmentUsd := 100, entryProbability := 1/2,
    status := TradeStatus.CLOSED, pnl := some 10 }

/-- A closed trade with P&L exactly 0 for the win-rate witness. -/
def c10Zero : AgentTrade :=
  { id := "t2", agentId := "GROK_4", marketId := "m2", side := Side.NO,
    confidence := 7/10, investmentUsd := 100, entryProbability := 1/2,
    status := TradeStatus.CLOSED, pnl := some 0 }

/-! ## Theorems -/

/-- The lifecycle loop is a filter on surviving entries, a `filterMap` of
close records, and the sum of rule-based P&L contributions. -/
theorem processEntries_eq (marketsMap : String → Option Market)
    (scoresMap : String → Option ℚ) (now : ℤ)
    (es : List (String × Position)) :
    processEntries marketsMap scoresMap now es =
      (es.filter (keepEntry marketsMap scoresMap now),
       es.filterMap (closeResult marketsMap scoresMap now),
       (es.map (ruleDelta marketsMap scoresMap now)).sum) := by
  induction es with
  | nil => simp [processEntries]
  | cons e rest ih =>
    obtain ⟨marketId, position⟩ := e
    cases h : marketsMap marketId with
    | none =>
      simp [processEntries, List.filter_cons, List.filterMap_cons,
        keepEntry, closeResult, ruleDelta, h, ih]
    | some market =>
      by_cases hc : shouldClosePosition position market (scoresMap marketId) now
      · simp [processEntries, List.filter_cons, List.filterMap_cons,
          keepEntry, closeResult, ruleDelta, h, hc, ih]
        ring
      · simp [processEntries, List.filter_cons, List.filterMap_cons,
          keepEntry, closeResult, ruleDelta, h, hc, ih]

/-- C5: `calculateRealizedPnl` returns `(exit − entry) × size` for YES and
`(entry − exit) × size` for NO; in particular a YES position with entry
0.40 and size 100 exited at 0.70 yields 30, and a NO position with entry
0.60 and size 100 exited at 0.30 yields 30. -/
theorem calculateRealizedPnl_spec :
    (∀ (position : Position) (exitProbability : ℚ),
      calculateRealizedPnl position exitProbability =
        if position.side = Side.YES then
          (exitProbability - position.entryProbability) * position.sizeUsd
        else
          (position.entryProbability - exitProbability) * position.sizeUsd) ∧
    calculateRealizedPnl
      { marketId := "m1", side := Side.YES, entryProbability := 4/10,
        sizeUsd := 100, openedAt := 0, unrealizedPnl := 0 } (7/10) = 30 ∧
    calculateRealizedPnl
      { marketId := "m2", side := Side.NO, entryProbability := 6/10,
        sizeUsd := 100, openedAt := 0, unrealizedPnl := 0 } (3/10) = 30 := by
  refine ⟨fun position exitProbability => ?_, by norm_num [calculateRealizedPnl],
    by norm_num [calculateRealizedPnl]⟩
  cases h : position.side <;> simp [calculateRealizedPnl, h]

/-- C4: `shouldClosePosition` closes a YES position at probability exactly
0.80; at 0.79 with no stop-loss, age or score condition met it does not
close; a NO position closes at exactly 0.20 (take-profit) and at exactly
0.70 (stop-loss); a YES position closes at exactly 0.30 (stop-loss). -/
theorem shouldClosePosition_boundaries :
    (∀ (p : Position) (m : Market) (s : Option ℚ) (now : ℤ),
      p.side = Side.YES → m.currentProbability = 8/10 →
      shouldClosePosition p m s now = true) ∧
    (∀ (p : Position) (m : Market) (s : Option ℚ) (now : ℤ),
      p.side = Side.YES → m.currentProbability = 79/100 →
      ((now - p.openedAt : ℤ) : ℚ) / (1000 * 60 * 60 * 24) < 30 →
      (∀ sc, s = some sc → 20 ≤ sc) →
      shouldClosePosition p m s now = false) ∧
    (∀ (p : Position) (m : Market) (s : Option ℚ) (now : ℤ),
      p.side = Side.NO → m.currentProbability = 2/10 →
      shouldClosePosition p m s now = true) ∧
    (∀ (p : Position) (m : Market) (s : Option ℚ) (now : ℤ),
      p.side = Side.NO → m.currentProbability = 7/10 →
      shouldClosePosition p m s now = true) ∧
    (∀ (p : Position) (m : Market) (s : Option ℚ) (now : ℤ),
      p.side = Side.YES → m.currentProbability = 3/10 →
      shouldClosePosition p m s now = true) := by
  refine ⟨?_, ?_, ?_, ?_, ?_⟩
  · intro p m s now hside hprob
    simp [shouldClosePosition, hside, hprob, TAKE_PROFIT_YES]
  · intro p m s now hside hprob hdays hscore
    simp only [shouldClosePosition, hside, hprob, TAKE_PROFIT_YES, TAKE_PROFIT_NO,
      STOP_LOSS_YES, STOP_LOSS_NO, MAX_HOLDING_DAYS, MIN_SCORE_THRESHOLD]
    rw [if_neg (by norm_num), if_neg (by simp), if_neg (by norm_num),
      if_neg (by simp), if_neg (by exact not_le.mpr hdays)]
    cases hs : s with
    | none => rfl
    | some sc =>
      have hge := hscore sc hs
      show (if sc < 20 then true else false) = false
      rw [if_neg (not_lt.mpr hge)]
  · intro p m s now hside hprob
    simp [shouldClosePosition, hside, hprob, TAKE_PROFIT_NO]
  · intro p m s now hside hprob
    simp [shouldClosePosition, hside, hprob, TAKE_PROFIT_NO, STOP_LOSS_NO]
  · intro p m s now hside hprob
    simp [shouldClosePosition, hside, hprob, TAKE_PROFIT_YES, STOP_LOSS_YES]

/-- C4 witness: the five boundary evaluations at concrete positions and
markets (a position opened at time 0 evaluated at time 0, no score). -/
theorem shouldClosePosition_boundaries_witness :
    shouldClosePosition
      { marketId := "m", side := Side.YES, entryProbability := 1/2,
        sizeUsd := 100, openedAt := 0, unrealizedPnl := 0 }
      { id := "m", currentProbability := 8/10, volume := 0, liquidity := 0 }
      none 0 = true ∧
    shouldClosePosition
      { marketId := "m", side := Side.YES, entryProbability := 1/2,
        sizeUsd := 100, openedAt := 0, unrealizedPnl := 0 }
      { id := "m", currentProbability := 79/100, volume := 0, liquidity := 0 }
      none 0 = false ∧
    shouldClosePosition
      { marketId := "m", side := Side.NO, entryProbability := 1/2,
        sizeUsd := 100, openedAt := 0, unrealizedPnl := 0 }
      { id := "m", currentProbability := 2/10, volume := 0, liquidity := 0 }
      none 0 = true ∧
    shouldClosePosition
      { marketId := "m", side := Side.NO, entryProbability := 1/2,
        sizeUsd := 100, openedAt := 0, unrealizedPnl := 0 }
      { id := "m", currentProbability := 7/10, volume := 0, liquidity := 0 }
      none 0 = true ∧
    shouldClosePosition
      { marketId := "m", side := Side.YES, entryProbability := 1/2,
        sizeUsd := 100, openedAt := 0, unrealizedPnl := 0 }
      { id := "m", currentProbability := 3/10, volume := 0, liquidity := 0 }
      none 0 = true :=
  ⟨shouldClosePosition_boundaries.1 _ _ _ _ rfl rfl,
   shouldClosePosition_boundaries.2.1 _ _ _ _ rfl rfl (by norm_num)
     (fun sc h => by cases h),
   shouldClosePosition_boundaries.2.2.1 _ _ _ _ rfl rfl,
   shouldClosePosition_boundaries.2.2.2.1 _ _ _ _ rfl rfl,
   shouldClosePosition_boundaries.2.2.2.2 _ _ _ _ rfl rfl⟩

/-- C8 counterexample: at opposite-side confidence exactly 0.70 — which
does not exceed 0.70 — `shouldFlipPosition` still returns true for a
losing YES position whose probability moved 0.15 from entry, so the
flip can fire without the confidence strictly exceeding 0.70. -/
theorem shouldFlipPosition_boundary_counterexample :
    shouldFlipPosition
      { marketId := "m1", side := Side.YES, entryProbability := 1/2,
        sizeUsd := 100, openedAt := 0, unrealizedPnl := -15 }
      { id := "m1", currentProbability := 7/20, volume := 0, liquidity := 0 }
      GROK_4 (7/10) = true ∧
    ¬((7 : ℚ)/10 > 7/10) := by
  constructor
  · have h2 : ¬((7:ℚ)/10 < 7/10) := lt_irrefl _
    have habs : |(7:ℚ)/20 - 1/2| = 3/20 := by
      rw [show (7:ℚ)/20 - 1/2 = -(3/20) by norm_num, abs_neg]
      exact abs_of_nonneg (by norm_num)
    simp [shouldFlipPosition, h2, habs]
    refine ⟨by norm_num, ?_⟩
    rw [le_abs]
    right
    norm_num
  · norm_num

/-- C8 amended: `shouldFlipPosition` returns true exactly when the
position is losing (current probability strictly disfavors the held side
relative to entry), the opposite-side confidence is at least 0.70, and
the absolute probability move from entry is at least 0.10. -/
theorem shouldFlipPosition_iff (position : Position) (market : Market)
    (agent : AgentProfile) (newConfidence : ℚ) :
    shouldFlipPosition position market agent newConfidence = true ↔
      ((if position.side = Side.YES then
          market.currentProbability < position.entryProbability
        else
          position.entryProbability < market.currentProbability) ∧
       7/10 ≤ newConfidence ∧
       1/10 ≤ |market.currentProbability - position.entryProbability|) := by
  cases hside : position.side <;>
    simp [shouldFlipPosition, hside, not_lt, and_assoc]

/-- C2 counterexample: running the lifecycle over a snapshot with no
markets closes the position at its last unrealized P&L of 5 and returns
it, yet the portfolio realized-P&L running total stays 0 instead of
increasing by 5 — the missing-market close is not accumulated. -/
theorem processPositionLifecycle_missing_not_accumulated :
    (processPositionLifecycle c2Portfolio (fun _ => none) (fun _ => none) 0).2 =
      [(c2Pos, c2Pos.unrealizedPnl)] ∧
    (processPositionLifecycle c2Portfolio (fun _ => none) (fun _ => none) 0).1.realizedPnlUsd ≠
      c2Portfolio.realizedPnlUsd + c2Pos.unrealizedPnl := by
  constructor
  · simp [processPositionLifecycle, processEntries, c2Portfolio]
  · simp [processPositionLifecycle, processEntries, c2Portfolio, c2Pos]

/-- C2 amended: `processPositionLifecycle` returns the list of all closed
positions — rule-based closes realized by `calculateRealizedPnl` at the
current probability and missing-market closes realized at the last known
unrealized P&L — but adds to the portfolio realized-P&L running total
(and to current capital) only the P&L of rule-based closes; missing-market
closes leave both totals unchanged. -/
theorem processPositionLifecycle_accumulation (portfolio : Portfolio)
    (marketsMap : String → Option Market) (scoresMap : String → Option ℚ)
    (now : ℤ) :
    (processPositionLifecycle portfolio marketsMap scoresMap now).2 =
      portfolio.openPositions.filterMap (closeResult marketsMap scoresMap now) ∧
    (processPositionLifecycle portfolio marketsMap scoresMap now).1.realizedPnlUsd =
      portfolio.realizedPnlUsd +
        (portfolio.openPositions.map (ruleDelta marketsMap scoresMap now)).sum ∧
    (processPositionLifecycle portfolio marketsMap scoresMap now).1.currentCapitalUsd =
      portfolio.currentCapitalUsd +
        (portfolio.openPositions.map (ruleDelta marketsMap scoresMap now)).sum ∧
    (processPositionLifecycle portfolio marketsMap scoresMap now).1.openPositions =
      portfolio.openPositions.filter (keepEntry marketsMap scoresMap now) := by
  simp [processPositionLifecycle, processEntries_eq]

/-- C6: when the market of a position is absent from the snapshot, the
lifecycle closes it at its last known unrealized P&L, removes it from the
open positions, and the rest of the result — surviving positions, both
running totals, and the other closed positions — is exactly what
processing the portfolio without that position produces. -/
theorem processPositionLifecycle_missing_market (P : Portfolio)
    (M : String → Option Market) (S : String → Option ℚ) (now : ℤ)
    (pre post : List (String × Position)) (m : String) (p : Position)
    (hM : M m = none)
    (hopen : P.openPositions = pre ++ (m, p) :: post)
    (hkey : m ∉ (pre ++ post).map Prod.fst) :
    (processPositionLifecycle P M S now).2 =
      pre.filterMap (closeResult M S now) ++
        (p, p.unrealizedPnl) :: post.filterMap (closeResult M S now) ∧
    (∀ q, (m, q) ∉ (processPositionLifecycle P M S now).1.openPositions) ∧
    (processPositionLifecycle P M S now).1.openPositions =
      (processPositionLifecycle { P with openPositions := pre ++ post } M S now).1.openPositions ∧
    (processPositionLifecycle P M S now).1.realizedPnlUsd =
      (processPositionLifecycle { P with openPositions := pre ++ post } M S now).1.realizedPnlUsd ∧
    (processPositionLifecycle P M S now).1.currentCapitalUsd =
      (processPositionLifecycle { P with openPositions := pre ++ post } M S now).1.currentCapitalUsd := by
  refine ⟨?_, ?_, ?_, ?_, ?_⟩
  · simp [processPositionLifecycle, processEntries_eq, hopen,
      List.filterMap_append, List.filterMap_cons, closeResult, hM]
  · intro q hq
    simp only [processPositionLifecycle, processEntries_eq] at hq
    rw [hopen, List.mem_filter] at hq
    obtain ⟨hmem, hkeep⟩ := hq
    rcases List.mem_append.mp hmem with h | h
    · exact hkey (List.mem_map.mpr ⟨(m, q), List.mem_append.mpr (Or.inl h), rfl⟩)
    · rcases List.mem_cons.mp h with heq | h
      · rw [heq] at hkeep
        simp [keepEntry, hM] at hkeep
      · exact hkey (List.mem_map.mpr ⟨(m, q), List.mem_append.mpr (Or.inr h), rfl⟩)
  · simp [processPositionLifecycle, processEntries_eq, hopen,
      List.filter_append, List.filter_cons, keepEntry, hM]
  · simp [processPositionLifecycle, processEntries_eq, hopen,
      List.map_append, List.map_cons, List.sum_append, List.sum_cons, ruleDelta, hM]
  · simp [processPositionLifecycle, processEntries_eq, hopen,
      List.map_append, List.map_cons, List.sum_append, List.sum_cons, ruleDelta, hM]

/-- C6 witness: the missing-market theorem applied to `c6Portfolio` with
`pre = []`, `post = [("m2", c6KeepPos)]`. -/
theorem processPositionLifecycle_missing_market_witness :
    (processPositionLifecycle c6Portfolio c6M (fun _ => none) 0).2 =
      ([] : List (String × Position)).filterMap (closeResult c6M (fun _ => none) 0) ++
        (c6MissPos, c6MissPos.unrealizedPnl) ::
          [("m2", c6KeepPos)].filterMap (closeResult c6M (fun _ => none) 0) ∧
    (∀ q, ("m1", q) ∉ (processPositionLifecycle c6Portfolio c6M (fun _ => none) 0).1.openPositions) ∧
    (processPositionLifecycle c6Portfolio c6M (fun _ => none) 0).1.openPositions =
      (processPositionLifecycle { c6Portfolio with openPositions := [] ++ [("m2", c6KeepPos)] }
        c6M (fun _ => none) 0).1.openPositions ∧
    (processPositionLifecycle c6Portfolio c6M (fun _ => none) 0).1.realizedPnlUsd =
      (processPositionLifecycle { c6Portfolio with openPositions := [] ++ [("m2", c6KeepPos)] }
        c6M (fun _ => none) 0).1.realizedPnlUsd ∧
    (processPositionLifecycle c6Portfolio c6M (fun _ => none) 0).1.currentCapitalUsd =
      (processPositionLifecycle { c6Portfolio with openPositions := [] ++ [("m2", c6KeepPos)] }
        c6M (fun _ => none) 0).1.currentCapitalUsd :=
  processPositionLifecycle_missing_market c6Portfolio c6M (fun _ => none) 0
    [] [("m2", c6KeepPos)] "m1" c6MissPos (by simp [c6M]) (by rfl) (by simp)

/-- Setting a key makes its lookup return the new entry. -/
theorem mapGet_mapSet_self (c : AgentCache) (k : String) (v : CacheEntry) :
    mapGet (mapSet c k v) k = some v := by
  induction c with
  | nil => simp [mapSet, mapGet]
  | cons e rest ih =>
    obtain ⟨k', v'⟩ := e
    by_cases h : k' = k
    · simp [mapSet, mapGet, h]
    · simp [mapSet, mapGet, h, ih]

/-- Deleting a key makes its lookup return nothing. -/
theorem mapGet_mapDelete_self (c : AgentCache) (k : String) :
    mapGet (mapDelete c k) k = none := by
  induction c with
  | nil => simp [mapDelete, mapGet]
  | cons e rest ih =>
    obtain ⟨k', v'⟩ := e
    by_cases h : k' = k
    · simpa [mapDelete, List.filter_cons, h] using ih
    · simpa [mapDelete, mapGet, List.filter_cons, h] using ih

/-- C3: after `setCachedAgentTrades(agent, trades, S)` at time `t`, a
`getCachedAgentTrades(agent, S)` before the 30-second TTL elapses returns
exactly `trades` (and leaves the cache untouched); a query with any
market-id list different from `S` returns null and evicts the cached
entry; and a query at or after TTL expiry returns null and evicts the
entry. -/
theorem agentTradeCache_spec (cache : AgentCache) (agentId : String)
    (trades : List AgentTrade) (S : List String) (t tq : ℤ) (Sq : List String) :
    (t ≤ tq → tq - t < CACHE_TTL_MS →
      getCachedAgentTrades tq (setCachedAgentTrades t cache agentId trades S) agentId S =
        (some trades, setCachedAgentTrades t cache agentId trades S)) ∧
    (Sq ≠ S →
      (getCachedAgentTrades tq (setCachedAgentTrades t cache agentId trades S) agentId Sq).1 =
        none ∧
      mapGet (getCachedAgentTrades tq (setCachedAgentTrades t cache agentId trades S) agentId Sq).2
        agentId = none) ∧
    (tq - t ≥ CACHE_TTL_MS →
      (getCachedAgentTrades tq (setCachedAgentTrades t cache agentId trades S) agentId S).1 =
        none ∧
      mapGet (getCachedAgentTrades tq (setCachedAgentTrades t cache agentId trades S) agentId S).2
        agentId = none) := by
  have hget : mapGet (setCachedAgentTrades t cache agentId trades S) agentId =
      some { trades := trades, generatedAt := t, marketIds := S } :=
    mapGet_mapSet_self cache agentId _
  refine ⟨?_, ?_, ?_⟩
  · intro _ hlt
    simp only [getCachedAgentTrades, hget]
    rw [if_neg (by omega), if_neg (by simp), if_neg (by simp)]
  · intro hne
    simp only [getCachedAgentTrades, hget]
    by_cases httl : tq - t ≥ CACHE_TTL_MS
    · rw [if_pos httl]
      exact ⟨rfl, mapGet_mapDelete_self _ _⟩
    · rw [if_neg httl]
      by_cases hlen : S.length ≠ Sq.length
      · rw [if_pos hlen]
        exact ⟨rfl, mapGet_mapDelete_self _ _⟩
      · rw [if_neg hlen, if_pos (by simpa using Ne.symm hne)]
        exact ⟨rfl, mapGet_mapDelete_self _ _⟩
  · intro httl
    simp only [getCachedAgentTrades, hget]
    rw [if_pos httl]
    exact ⟨rfl, mapGet_mapDelete_self _ _⟩

/-- C3 witness: cache set at time 0 for market ids `[m1, m2]`; a query at
1000 ms with the same ids hits, a query with `[m1, m3]` (same length, one
differing id) misses and evicts, a query at 30000 ms misses and evicts. -/
theorem agentTradeCache_spec_witness :
    getCachedAgentTrades 1000 (setCachedAgentTrades 0 [] "GROK_4" [c3Trade] ["m1", "m2"])
        "GROK_4" ["m1", "m2"] =
      (some [c3Trade], setCachedAgentTrades 0 [] "GROK_4" [c3Trade] ["m1", "m2"]) ∧
    ((getCachedAgentTrades 1000 (setCachedAgentTrades 0 [] "GROK_4" [c3Trade] ["m1", "m2"])
        "GROK_4" ["m1", "m3"]).1 = none ∧
      mapGet (getCachedAgentTrades 1000 (setCachedAgentTrades 0 [] "GROK_4" [c3Trade] ["m1", "m2"])
        "GROK_4" ["m1", "m3"]).2 "GROK_4" = none) ∧
    ((getCachedAgentTrades 30000 (setCachedAgentTrades 0 [] "GROK_4" [c3Trade] ["m1", "m2"])
        "GROK_4" ["m1", "m2"]).1 = none ∧
      mapGet (getCachedAgentTrades 30000 (setCachedAgentTrades 0 [] "GROK_4" [c3Trade] ["m1", "m2"])
        "GROK_4" ["m1", "m2"]).2 "GROK_4" = none) :=
  ⟨(agentTradeCache_spec [] "GROK_4" [c3Trade] ["m1", "m2"] 0 1000 ["m1", "m3"]).1
      (by norm_num) (by norm_num [CACHE_TTL_MS]),
   (agentTradeCache_spec [] "GROK_4" [c3Trade] ["m1", "m2"] 0 1000 ["m1", "m3"]).2.1
      (by simp),
   (agentTradeCache_spec [] "GROK_4" [c3Trade] ["m1", "m2"] 0 30000 ["m1", "m3"]).2.2
      (by norm_num [CACHE_TTL_MS])⟩

/-- One summary step starting from a still-unset best P&L (`-Infinity`)
always records the current agent as best. -/
theorem summaryStep_from_none (acc : SummaryAcc) (e : String × List AgentTrade)
    (h : acc.bestPnl = none) :
    (summaryStep acc e).bestPnl.isSome ∧ (summaryStep acc e).bestAgentByPnl.isSome := by
  simp [summaryStep, h]

/-- Once both best-trackers are set, the summary fold keeps them set. -/
theorem summaryFold_keeps_some (l : List (String × List AgentTrade)) :
    ∀ acc : SummaryAcc, acc.bestPnl.isSome → acc.bestAgentByPnl.isSome →
      (l.foldl summaryStep acc).bestPnl.isSome ∧
      (l.foldl summaryStep acc).bestAgentByPnl.isSome := by
  induction l with
  | nil => intro acc h1 h2; exact ⟨h1, h2⟩
  | cons e rest ih =>
    intro acc h1 h2
    rw [List.foldl_cons]
    apply ih
    · simp only [summaryStep]
      split <;> simp [h1]
    · simp only [summaryStep]
      split <;> simp [h2]

/-- C1 counterexample: a mapping with one agent holding a single OPEN
trade — so no agent has any CLOSED trade — for which `computeSummaryStats`
reports that agent as `bestAgentByPnl` instead of null: an agent with no
closed trades gets total P&L 0, and `0 > -Infinity` wins the comparison. -/
theorem computeSummaryStats_spurious_best :
    (∀ tr ∈ [c3Trade], tr.status ≠ TradeStatus.CLOSED) ∧
    (computeSummaryStats [("GROK_4", [c3Trade])]).bestAgentByPnl = some "GROK_4" := by
  constructor
  · intro tr htr
    simp only [List.mem_singleton] at htr
    subst htr
    simp [c3Trade]
  · rfl

/-- C1 amended: `computeSummaryStats` returns `bestAgentByPnl = null`
exactly when the input mapping contains no agents at all; any non-empty
mapping — even one in which no agent has a single closed trade — reports
some agent id. -/
theorem computeSummaryStats_bestAgent_none_iff
    (tradesByAgent : List (String × List AgentTrade)) :
    (computeSummaryStats tradesByAgent).bestAgentByPnl = none ↔ tradesByAgent = [] := by
  constructor
  · intro h
    cases hl : tradesByAgent with
    | nil => rfl
    | cons e rest =>
      exfalso
      rw [hl] at h
      unfold computeSummaryStats at h
      rw [List.foldl_cons] at h
      have h1 := summaryStep_from_none summaryInit e rfl
      have h2 := summaryFold_keeps_some rest _ h1.1 h1.2
      obtain ⟨b, hb⟩ := Option.isSome_iff_exists.mp h2.1
      obtain ⟨a, ha⟩ := Option.isSome_iff_exists.mp h2.2
      simp only [hb, ha] at h
      exact Option.noConfusion h
  · intro h
    subst h
    rfl

/-- Every profile stored under an own key of the registry is stored
under its own id. -/
theorem AGENT_PROFILES_id (s : String) (p : AgentProfile)
    (hA : AGENT_PROFILES_own s = some p) : p.id = s := by
  by_cases h1 : s = "GROK_4"
  · subst h1; simp [AGENT_PROFILES_own] at hA; subst hA; rfl
  by_cases h2 : s = "GPT_5"
  · subst h2; simp [AGENT_PROFILES_own] at hA; subst hA; rfl
  by_cases h3 : s = "DEEPSEEK_V3"
  · subst h3; simp [AGENT_PROFILES_own] at hA; subst hA; rfl
  by_cases h4 : s = "GEMINI_2_5"
  · subst h4; simp [AGENT_PROFILES_own] at hA; subst hA; rfl
  by_cases h5 : s = "CLAUDE_4_5"
  · subst h5; simp [AGENT_PROFILES_own] at hA; subst hA; rfl
  by_cases h6 : s = "QWEN_2_5"
  · subst h6; simp [AGENT_PROFILES_own] at hA; subst hA; rfl
  simp [AGENT_PROFILES_own, h1, h2, h3, h4, h5, h6] at hA

/-- A profile value produced by the property read always comes from an
own key: the prototype chain never yields a profile. -/
theorem AGENT_PROFILES_profile_own (s : String) (p : AgentProfile)
    (hA : AGENT_PROFILES s = some (JsProfileValue.profile p)) :
    AGENT_PROFILES_own s = some p := by
  unfold AGENT_PROFILES at hA
  cases h : AGENT_PROFILES_own s with
  | some q =>
    rw [h] at hA
    simp only [Option.some.injEq, JsProfileValue.profile.injEq] at hA
    rw [hA]
  | none =>
    rw [h] at hA
    by_cases hin : s ∈ OBJECT_PROTOTYPE_KEYS
    · rw [if_pos hin] at hA
      simp at hA
    · rw [if_neg hin] at hA
      simp at hA

/-- Every registered profile allows at least one trade. -/
theorem AGENT_PROFILES_maxTrades_pos (s : String) (p : AgentProfile)
    (hA : AGENT_PROFILES_own s = some p) : 0 < p.maxTrades := by
  by_cases h1 : s = "GROK_4"
  · subst h1; simp [AGENT_PROFILES_own] at hA; subst hA; decide
  by_cases h2 : s = "GPT_5"
  · subst h2; simp [AGENT_PROFILES_own] at hA; subst hA; decide
  by_cases h3 : s = "DEEPSEEK_V3"
  · subst h3; simp [AGENT_PROFILES_own] at hA; subst hA; decide
  by_cases h4 : s = "GEMINI_2_5"
  · subst h4; simp [AGENT_PROFILES_own] at hA; subst hA; decide
  by_cases h5 : s = "CLAUDE_4_5"
  · subst h5; simp [AGENT_PROFILES_own] at hA; subst hA; decide
  by_cases h6 : s = "QWEN_2_5"
  · subst h6; simp [AGENT_PROFILES_own] at hA; subst hA; decide
  simp [AGENT_PROFILES_own, h1, h2, h3, h4, h5, h6] at hA

/-- C9 (code bug): `toString` is not one of the fixed agent ids, yet
`getAgentProfile` does not throw for it — the bracket read on the plain
object literal finds the truthy member inherited from
`Object.prototype`, the `!profile` guard never fires, and the inherited
member is returned as if it were a profile; the JS `in` operator
likewise reports the key as present.  The same holds for every other
`Object.prototype` property name, against both the claim and the spec
requirement to fail fast with a descriptive error. -/
theorem getAgentProfile_protoLeak :
    "toString" ∉ ALL_AGENT_IDS ∧
    getAgentProfile "toString" =
      Except.ok (JsProfileValue.protoMember "toString") ∧
    (∀ e : String, getAgentProfile "toString" ≠ Except.error e) ∧
    (∀ p : AgentProfile, getAgentProfile "toString" ≠
      Except.ok (JsProfileValue.profile p)) ∧
    isValidAgentId "toString" = true := by
  have hval : getAgentProfile "toString" =
      Except.ok (JsProfileValue.protoMember "toString") := rfl
  refine ⟨by decide, hval, ?_, ?_, by decide⟩
  · intro e h
    rw [hval] at h
    exact Except.noConfusion h
  · intro p h
    rw [hval] at h
    simp at h

/-- C10: in `calculateAgentStats`, a closed trade with P&L exactly 0
enters the losses (only strictly positive P&L counts as a win), so it
enters the win-rate denominator but not the numerator: appending such a
trade keeps the win count, increments the loss count, never raises the
win rate, and strictly lowers it whenever at least one win exists. -/
theorem calculateAgentStats_zero_pnl (trades : List AgentTrade)
    (t0 : AgentTrade) (hstatus : t0.status = TradeStatus.CLOSED)
    (hpnl : t0.pnl = some 0) :
    statsWins (trades ++ [t0]) = statsWins trades ∧
    statsLosses (trades ++ [t0]) = statsLosses trades + 1 ∧
    statsWinRate (trades ++ [t0]) ≤ statsWinRate trades ∧
    (0 < statsWins trades → statsWinRate (trades ++ [t0]) < statsWinRate trades) := by
  have hclosed : statsClosedTrades (trades ++ [t0]) = statsClosedTrades trades ++ [t0] := by
    simp [statsClosedTrades, List.filter_append, hstatus, hpnl]
  have hw : statsWins (trades ++ [t0]) = statsWins trades := by
    simp [statsWins, hclosed, List.filter_append, pnlOrZero, hpnl]
  have hl : statsLosses (trades ++ [t0]) = statsLosses trades + 1 := by
    simp [statsLosses, hclosed, List.filter_append, pnlOrZero, hpnl]
  have hstrict : 0 < statsWins trades →
      statsWinRate (trades ++ [t0]) < statsWinRate trades := by
    intro hpos
    have hwq : (0:ℚ) < statsWins trades := by exact_mod_cast hpos
    have hlq : (0:ℚ) ≤ statsLosses trades := by positivity
    simp only [statsWinRate, hw, hl]
    rw [if_pos (by omega), if_pos (by omega)]
    apply mul_lt_mul_of_pos_right _ (by norm_num : (0:ℚ) < 100)
    push_cast
    apply div_lt_div_of_pos_left hwq (by linarith) (by linarith)
  have hle : statsWinRate (trades ++ [t0]) ≤ statsWinRate trades := by
    rcases Nat.eq_zero_or_pos (statsWins trades) with h0 | hpos
    · simp only [statsWinRate, hw, hl, h0]
      rw [if_pos (by omega)]
      push_cast
      rw [zero_div, zero_mul]
      split
      · rw [zero_div, zero_mul]
      · rfl
    · exact le_of_lt (hstrict hpos)
  exact ⟨hw, hl, hle, hstrict⟩

/-- C10 witness: with one winning closed trade, appending the zero-P&L
closed trade keeps one win, adds a loss, and strictly lowers the win
rate. -/
theorem calculateAgentStats_zero_pnl_witness :
    statsWins ([c10Win] ++ [c10Zero]) = statsWins [c10Win] ∧
    statsLosses ([c10Win] ++ [c10Zero]) = statsLosses [c10Win] + 1 ∧
    statsWinRate ([c10Win] ++ [c10Zero]) ≤ statsWinRate [c10Win] ∧
    (0 < statsWins [c10Win] →
      statsWinRate ([c10Win] ++ [c10Zero]) < statsWinRate [c10Win]) :=
  calculateAgentStats_zero_pnl [c10Win] c10Zero rfl rfl

/-- The acceptance loop never grows the trade list past `maxTrades` when
it starts strictly below it. -/
theorem tradeLoop_length_le (maxTrades : ℕ)
    (oracle : ScoredMarket → ℕ → Option AgentTrade)
    (ms : List ScoredMarket) :
    ∀ (i : ℕ) (acc : List AgentTrade), acc.length < maxTrades →
      (tradeLoop maxTrades oracle ms i acc).length ≤ maxTrades := by
  induction ms with
  | nil =>
    intro i acc h
    simp only [tradeLoop]
    omega
  | cons scored rest ih =>
    intro i acc h
    simp only [tradeLoop]
    cases ho : oracle scored i with
    | none =>
      dsimp only
      rw [if_neg (by omega)]
      exact ih (i + 1) acc h
    | some trade =>
      dsimp only
      by_cases hge : (acc ++ [trade]).length ≥ maxTrades
      · rw [if_pos hge]
        simp only [List.length_append, List.length_singleton]
        omega
      · rw [if_neg hge]
        refine ih (i + 1) (acc ++ [trade]) ?_
        omega

/-- C7: for every registered agent profile, every scored-candidate list
and every oracle behaviour, the generation loop — top `2 × maxTrades`
candidates in score order, stopping once `maxTrades` trades are accepted
or the candidates run out — returns at most `maxTrades` trades. -/
theorem generateAgentTrades_le_maxTrades (agentId : String)
    (profile : AgentProfile)
    (h : getAgentProfile agentId = Except.ok (JsProfileValue.profile profile))
    (scoredMarkets : List ScoredMarket)
    (oracle : ScoredMarket → ℕ → Option AgentTrade) :
    (generateTradesFromScored profile scoredMarkets oracle).length ≤
      profile.maxTrades := by
  have hA : AGENT_PROFILES agentId = some (JsProfileValue.profile profile) := by
    unfold getAgentProfile at h
    cases hA : AGENT_PROFILES agentId with
    | none => rw [hA] at h; simp at h
    | some v => rw [hA] at h; simp only [Except.ok.injEq] at h; rw [h]
  have hown := AGENT_PROFILES_profile_own agentId profile hA
  have hpos := AGENT_PROFILES_maxTrades_pos agentId profile hown
  unfold generateTradesFromScored
  exact tradeLoop_length_le profile.maxTrades oracle _ 0 [] (by simpa using hpos)

/-- C7 witness: the GROK 4 profile with no candidates and a never-trading
oracle yields at most its five allowed trades. -/
theorem generateAgentTrades_le_maxTrades_witness :
    getAgentProfile "GROK_4" = Except.ok (JsProfileValue.profile GROK_4) ∧
    (generateTradesFromScored GROK_4 [] (fun _ _ => none)).length ≤
      GROK_4.maxTrades :=
  ⟨rfl,
   generateAgentTrades_le_maxTrades "GROK_4" GROK_4 rfl [] (fun _ _ => none)⟩

end Mira
